import Mathlib

/-!
GAPI — verification of the backend entry point and the specified BFF gateway.

The repository ships a two-file skeleton: a README describing the intended
API-gateway architecture and `src/backend/src/index.ts`, an Express entry
point that registers a single `GET /health` route and listens on port 3001.

The first part of this file embeds the delivered entry point: an HTTP
request/response model, the route table that `index.ts` registers, and the
Express dispatch over that table.

The second part models, from the specification (the gateway itself is not
implemented in the delivered source), the BFF gateway components: TTL cache,
session gate, fixed-window rate limiter, fallback resolver, and the
orchestrator state machine, together with the gateway's HTTP surface.
-/

namespace GAPI

/-- A JSON value, the payload type of all responses. -/
inductive Json where
  | null
  | str (s : String)
  | num (n : Int)
  | bool (b : Bool)
  | arr (xs : List Json)
  | obj (fields : List (String × Json))

/-- HTTP methods used by the app (`index.ts` uses `app.get`; the specified
gateway also uses POST). -/
inductive Method where
  | GET
  | POST
  deriving DecidableEq, Repr

/-- An incoming HTTP request: method, path, and the parts a handler may
inspect (headers, cookies, query parameters, an optional body token). -/
structure Request where
  method : Method
  path : String
  headers : List (String × String)
  cookies : List (String × String)
  query : List (String × String)
  body : Option String

/-- An HTTP response: status code and JSON body. -/
structure Response where
  status : Nat
  body : Json

/-- The handler of `app.get('/health', ...)` in `src/backend/src/index.ts`:
ignores the request and sends `res.json({ status: 'ok' })`. -/
def healthHandler (_req : Request) : Response :=
  ⟨200, Json.obj [("status", Json.str "ok")]⟩

/-- A registered Express route: method, path, handler. -/
structure Route where
  method : Method
  path : String
  handler : Request → Response

/-- `const PORT = 3001` in `src/backend/src/index.ts`. -/
def PORT : Nat := 3001

/-- The routes registered on `app` in `src/backend/src/index.ts`: exactly one,
`GET /health`. -/
def appRoutes : List Route :=
  [⟨Method.GET, "/health", healthHandler⟩]

/-- The middleware registered on `app` in `src/backend/src/index.ts`: none
(the file contains no `app.use` call). -/
def appMiddleware : List (Request → Request) := []

/-- Express's default response when no registered route matches. -/
def notFoundResponse : Response := ⟨404, Json.null⟩

/-- Express dispatch: the first route whose method and path match the request
handles it; otherwise the 404 default applies. -/
def dispatch (routes : List Route) (req : Request) : Response :=
  match routes.find? (fun r => r.method == req.method && r.path == req.path) with
  | some r => r.handler req
  | none => notFoundResponse

/-- The delivered backend's request handling: dispatch over `appRoutes`. -/
def handleRequest (req : Request) : Response :=
  dispatch appRoutes req

/-- The server-side configuration of the delivered backend. `index.ts`
declares no store, cache, bucket or session variable; the only server-side
datum is the fixed port. -/
structure ServerConfig where
  port : Nat
  deriving DecidableEq, Repr

/-- The configuration `index.ts` starts with: port 3001. -/
def serverConfig : ServerConfig := ⟨PORT⟩

/-- One request-handling step of the delivered backend: produce the response
and the server configuration afterwards.  `index.ts` mutates nothing, so the
configuration passes through unchanged. -/
def serverStep (cfg : ServerConfig) (req : Request) : Response × ServerConfig :=
  (dispatch appRoutes req, cfg)

/-- C1 — The delivered backend entry point registers exactly one route,
`GET /health`, and no middleware; any request that is not `GET /health`
falls through to the 404 default. -/
theorem app_exposes_only_health :
    appRoutes.map (fun r => (r.method, r.path)) = [(Method.GET, "/health")]
    ∧ appMiddleware = []
    ∧ ∀ req : Request, ¬(req.method = Method.GET ∧ req.path = "/health") →
        handleRequest req = notFoundResponse := by
  refine ⟨rfl, rfl, ?_⟩
  intro req hne
  unfold handleRequest dispatch appRoutes
  have hfind : (Method.GET == req.method && ("/health" == req.path)) = false := by
    cases hMeth : req.method with
    | POST => simp [show (Method.GET == Method.POST) = false from by decide]
    | GET =>
      have hp : req.path ≠ "/health" := fun h => hne ⟨hMeth, h⟩
      have hb : ("/health" == req.path) = false := by
        cases h : "/health" == req.path with
        | true => exact absurd (beq_iff_eq.mp h).symm hp
        | false => rfl
      simp [hb]
  simp [List.find?, hfind]

/-- Closed witness for C1's conditional conjunct at a concrete request. -/
theorem app_exposes_only_health_witness :
    handleRequest ⟨Method.POST, "/health", [], [], [], none⟩ = notFoundResponse :=
  app_exposes_only_health.2.2 ⟨Method.POST, "/health", [], [], [], none⟩
    (by intro h; exact Method.noConfusion h.1)

/-- C3 — Every `GET /health` request, whatever its headers, cookies, query
parameters or body, receives the JSON body `{"status": "ok"}` with status
200. -/
theorem health_always_ok (req : Request)
    (hm : req.method = Method.GET) (hp : req.path = "/health") :
    handleRequest req = ⟨200, Json.obj [("status", Json.str "ok")]⟩ := by
  unfold handleRequest dispatch appRoutes
  simp [List.find?, hm, hp, healthHandler]

/-- Closed witness for C3: a `GET /health` request carrying headers, an
unrelated cookie and query parameters, but no session cookie, still gets
`{"status": "ok"}`. -/
theorem health_always_ok_witness :
    handleRequest
        ⟨Method.GET, "/health", [("x-test", "1")], [("other", "c")],
          [("q", "v")], none⟩
      = ⟨200, Json.obj [("status", Json.str "ok")]⟩ :=
  health_always_ok
    ⟨Method.GET, "/health", [("x-test", "1")], [("other", "c")],
      [("q", "v")], none⟩ rfl rfl

/-- C10 — Handling any request leaves the server-side state unchanged: the
delivered backend holds only the fixed configuration (port 3001), every step
returns it intact, and any two requests observe the same configuration. -/
theorem server_state_unchanged :
    (∀ req : Request, (serverStep serverConfig req).2 = serverConfig)
    ∧ serverConfig.port = 3001
    ∧ ∀ req₁ req₂ : Request,
        (serverStep serverConfig req₁).2 = (serverStep serverConfig req₂).2 :=
  ⟨fun _ => rfl, rfl, fun _ _ => rfl⟩

/-! ## The specified BFF gateway

The gateway below is not present in the delivered source; each definition is
modelled from the specification's component contracts. -/

/-- Modelled from the spec: a CacheEntry `{value, storedAt, ttl}` (the
`key` is the position in the store). The TTL Cache itself is missing from the
delivered source. -/
structure CacheEntry where
  value : Json
  storedAt : Nat
  ttl : Nat

/-- Modelled from the spec: the in-memory key-value cache store, one entry
per key. -/
abbrev CacheStore : Type := List (String × CacheEntry)

/-- Modelled from the spec: `set(key, value, ttl)` stores the value with the
current timestamp, replacing any previous entry for the key. -/
def cacheSet (c : CacheStore) (key : String) (v : Json) (ttl now : Nat) :
    CacheStore :=
  (key, ⟨v, now, ttl⟩) :: c.filter (fun kv => kv.1 != key)

/-- Modelled from the spec: `get(key)` returns `Miss` (here `none`) if the
key is absent or expired — fresh means elapsed time `now - storedAt < ttl`. -/
def cacheGet (c : CacheStore) (key : String) (now : Nat) : Option Json :=
  match c.find? (fun kv => kv.1 == key) with
  | none => none
  | some kv => if now < kv.2.storedAt + kv.2.ttl then some kv.2.value else none

/-- Modelled from the spec: the fixed-window rate-limit policy, a window
length and a maximum count per window. -/
structure RateConfig where
  windowLen : Nat
  maxCount : Nat

/-- Modelled from the spec: a RateBucket `{windowStart, count}` (the session
token and domain are the key into the bucket store). -/
structure RateBucket where
  windowStart : Nat
  count : Nat
  deriving DecidableEq, Repr

/-- Result of a rate-limiter `consume` call. -/
inductive RateResult where
  | Allowed
  | RateLimited
  deriving DecidableEq, Repr

/-- Modelled from the spec: the increment step of `consume` — increment the
bucket's count, except that when the incremented count would exceed the
configured maximum the call returns `RateLimited` without incrementing
further. -/
def bump (cfg : RateConfig) (cur : RateBucket) : RateResult × RateBucket :=
  if cur.count + 1 > cfg.maxCount then
    (RateResult.RateLimited, cur)
  else
    (RateResult.Allowed, ⟨cur.windowStart, cur.count + 1⟩)

/-- Modelled from the spec: `consume` on a bucket — if `now` is outside the
current window, reset the count to 0 and start a new window at `now`, then
increment; a missing bucket starts a fresh window. -/
def consume (cfg : RateConfig) : Option RateBucket → Nat → RateResult × RateBucket
  | none, now => bump cfg ⟨now, 0⟩
  | some bb, now =>
      if bb.windowStart + cfg.windowLen ≤ now then bump cfg ⟨now, 0⟩
      else bump cfg bb

/-- Iteration of `consume`: `n` consecutive calls at time `t`, returning the
bucket state (`none` before the first call ever). -/
def consumeRep (cfg : RateConfig) (t : Nat) : Nat → Option RateBucket
  | 0 => none
  | n + 1 => some (consume cfg (consumeRep cfg t n) t).2

/-- After `n ≤ maxCount` consume calls at time `t` within one window, the
bucket carries window start `t` and count `n`, and every call was allowed. -/
theorem consumeRep_le (cfg : RateConfig) (t : Nat) (hwin : 0 < cfg.windowLen) :
    ∀ n, n ≤ cfg.maxCount →
      (n = 0 → consumeRep cfg t n = none)
      ∧ (0 < n → consumeRep cfg t n = some ⟨t, n⟩)
      ∧ (∀ k, k < n → (consume cfg (consumeRep cfg t k) t).1 = RateResult.Allowed) := by
  intro n
  induction n with
  | zero => exact fun _ => ⟨fun _ => rfl, fun h => absurd h (by omega), fun k hk => absurd hk (by omega)⟩
  | succ m ih =>
    intro hle
    obtain ⟨h0, hpos, hall⟩ := ih (by omega)
    have hstep : consume cfg (consumeRep cfg t m) t = (RateResult.Allowed, ⟨t, m + 1⟩) := by
      cases m with
      | zero =>
        simp only [consumeRep, consume, bump]
        rw [if_neg (by omega)]
      | succ j =>
        rw [hpos (by omega)]
        simp only [consume]
        rw [if_neg (show ¬(t + cfg.windowLen ≤ t) from by omega)]
        simp only [bump]
        rw [if_neg (by omega)]
    refine ⟨fun h => absurd h (by omega), fun _ => ?_, fun k hk => ?_⟩
    · simp only [consumeRep, hstep]
    · rcases Nat.lt_or_ge k m with hkm | hkm
      · exact hall k hkm
      · have : k = m := by omega
        subst this
        rw [hstep]

/-- C5 — Fixed-window rate limiting: starting from no bucket, the first `N`
`consume` calls at time `t` (with `N` the configured maximum) are all
`Allowed` and leave the bucket at `{windowStart := t, count := N}`; a further
call at any time `t'` still inside the window returns `RateLimited` and does
not increment the count; a call at a time `t'` at or past the window's end
resets the bucket and is `Allowed` with count 1 in a window starting at
`t'`. -/
theorem rate_limiter_window (cfg : RateConfig) (t t' : Nat)
    (hmax : 0 < cfg.maxCount) (hwin : 0 < cfg.windowLen) :
    (∀ k, k < cfg.maxCount →
        (consume cfg (consumeRep cfg t k) t).1 = RateResult.Allowed)
    ∧ consumeRep cfg t cfg.maxCount = some ⟨t, cfg.maxCount⟩
    ∧ (t' < t + cfg.windowLen →
        consume cfg (consumeRep cfg t cfg.maxCount) t'
          = (RateResult.RateLimited, ⟨t, cfg.maxCount⟩))
    ∧ (t + cfg.windowLen ≤ t' →
        consume cfg (consumeRep cfg t cfg.maxCount) t'
          = (RateResult.Allowed, ⟨t', 1⟩)) := by
  obtain ⟨h0, hpos, hall⟩ := consumeRep_le cfg t hwin cfg.maxCount (Nat.le_refl _)
  have hbucket : consumeRep cfg t cfg.maxCount = some ⟨t, cfg.maxCount⟩ := hpos hmax
  refine ⟨hall, hbucket, fun hin => ?_, fun hout => ?_⟩
  · rw [hbucket]
    simp only [consume]
    rw [if_neg (show ¬(t + cfg.windowLen ≤ t') from by omega)]
    simp only [bump]
    rw [if_pos (by omega)]
  · rw [hbucket]
    simp only [consume]
    rw [if_pos hout]
    simp only [bump]
    rw [if_neg (by omega)]

/-- Closed witness for C5 with window length 60, maximum 3, first window at
time 100, a limited call at time 130 and a resetting call at time 160. -/
theorem rate_limiter_window_witness :
    (consume ⟨60, 3⟩ (consumeRep ⟨60, 3⟩ 100 2) 100).1 = RateResult.Allowed
    ∧ consumeRep ⟨60, 3⟩ 100 3 = some ⟨100, 3⟩
    ∧ consume ⟨60, 3⟩ (consumeRep ⟨60, 3⟩ 100 3) 130
        = (RateResult.RateLimited, ⟨100, 3⟩)
    ∧ consume ⟨60, 3⟩ (consumeRep ⟨60, 3⟩ 100 3) 160
        = (RateResult.Allowed, ⟨160, 1⟩) :=
  have h := rate_limiter_window ⟨60, 3⟩ 100 130 (by decide) (by decide)
  have h' := rate_limiter_window ⟨60, 3⟩ 100 160 (by decide) (by decide)
  ⟨h.1 2 (by decide), h.2.1, h.2.2.1 (by decide), h'.2.2.2 (by decide)⟩

/-- C4 — TTL cache: a `get` at time `tget` after a `set(key, v, ttl)` at time
`tset ≤ tget` returns `v` exactly when the elapsed time `tget - tset` is
strictly below `ttl`, and `Miss` (`none`) once the elapsed time reaches
`ttl`; moreover no cache whatsoever ever serves an entry past its TTL. -/
theorem cache_ttl (c : CacheStore) (key : String) (v : Json)
    (ttl tset tget : Nat) (hts : tset ≤ tget) :
    (tget - tset < ttl →
        cacheGet (cacheSet c key v ttl tset) key tget = some v)
    ∧ (ttl ≤ tget - tset →
        cacheGet (cacheSet c key v ttl tset) key tget = none)
    ∧ (∀ (c' : CacheStore) (k : String) (now : Nat) (w : Json),
        cacheGet c' k now = some w →
        ∃ kv, c'.find? (fun e => e.1 == k) = some kv
          ∧ now < kv.2.storedAt + kv.2.ttl ∧ kv.2.value = w) := by
  have hget : cacheGet (cacheSet c key v ttl tset) key tget
      = if tget < tset + ttl then some v else none := by
    simp [cacheGet, cacheSet, List.find?]
  refine ⟨fun hlt => ?_, fun hge => ?_, fun c' k now w hw => ?_⟩
  · rw [hget, if_pos (by omega)]
  · rw [hget, if_neg (by omega)]
  · unfold cacheGet at hw
    cases hfind : c'.find? (fun e => e.1 == k) with
    | none => rw [hfind] at hw; exact Option.noConfusion hw
    | some kv =>
      simp only [hfind] at hw
      by_cases hfresh : now < kv.2.storedAt + kv.2.ttl
      · rw [if_pos hfresh] at hw
        exact ⟨kv, rfl, hfresh, Option.some.inj hw⟩
      · rw [if_neg hfresh] at hw
        exact Option.noConfusion hw

/-- Closed witness for C4: set at time 10 with ttl 5 — a get at time 14 hits,
a get at time 15 misses. -/
theorem cache_ttl_witness :
    cacheGet (cacheSet [] "coins?limit=10" (Json.str "payload") 5 10)
        "coins?limit=10" 14 = some (Json.str "payload")
    ∧ cacheGet (cacheSet [] "coins?limit=10" (Json.str "payload") 5 10)
        "coins?limit=10" 15 = none :=
  ⟨(cache_ttl [] "coins?limit=10" (Json.str "payload") 5 10 14
      (by decide)).1 (by decide),
    (cache_ttl [] "coins?limit=10" (Json.str "payload") 5 10 15
      (by decide)).2.1 (by decide)⟩

/-! ### Sessions, domains and the gateway orchestrator (modelled from the spec) -/

/-- Modelled from the spec: a Session `{token, issuedAt, expiresAt}`,
carrying no user identity. The session store is missing from the delivered
source. -/
structure Session where
  token : String
  issuedAt : Nat
  expiresAt : Nat

/-- Modelled from the spec: the in-memory session store. -/
abbrev SessionStore : Type := List Session

/-- Modelled from the spec: Session Gate `validate(token)` — a missing or
unknown token is rejected, and a session with `now > expiresAt` is treated
identically to no session. -/
def validate (store : SessionStore) : Option String → Nat → Option Session
  | none, _ => none
  | some t, now =>
      match store.find? (fun s => s.token == t) with
      | none => none
      | some s => if s.expiresAt < now then none else some s

/-- The three fixed upstream domains served by the gateway. -/
inductive Domain where
  | coins
  | marsWeather
  | nasaTech
  deriving DecidableEq, Repr

/-- Query parameters of a domain request. -/
abbrev Query : Type := List (String × String)

/-- Path fragment naming each domain. -/
def domainName : Domain → String
  | Domain.coins => "coins"
  | Domain.marsWeather => "mars-weather"
  | Domain.nasaTech => "nasa-tech"

/-- Modelled from the spec: cache keys are derived deterministically from the
domain and the query parameters, so equivalent requests collide into one
entry. -/
def cacheKey (d : Domain) (q : Query) : String :=
  domainName d ++ "?" ++ String.intercalate "&" (q.map fun kv => kv.1 ++ "=" ++ kv.2)

/-- Modelled from the spec: the Upstream Client's error taxonomy — all
non-fatal to the gateway; all trigger fallback. -/
inductive UpstreamError where
  | Timeout
  | UpstreamRateLimited
  | UpstreamUnavailable
  | MalformedResponse
  deriving DecidableEq, Repr

/-- Outcome of an upstream fetch: a normalized payload or a classified
error. -/
inductive UpstreamOutcome where
  | success (data : Json)
  | failure (e : UpstreamError)

/-- The origin tag carried by every domain response. -/
inductive Origin where
  | fresh
  | fallback
  deriving DecidableEq, Repr

/-- Outcome a domain endpoint hands to the HTTP layer: an authentication
failure or a payload with its origin tag. -/
inductive GatewayResult where
  | unauthorized
  | ok (data : Json) (origin : Origin)

/-- Whether a JSON payload is non-empty. -/
def nonEmptyJson : Json → Bool
  | Json.null => false
  | Json.str s => !s.isEmpty
  | Json.num _ => true
  | Json.bool _ => true
  | Json.arr xs => !xs.isEmpty
  | Json.obj fs => !fs.isEmpty

/-- Modelled from the spec: the static, read-only FallbackRecord repository —
one predefined/historical payload per domain, loaded at process start. -/
def fallbackRepo : Domain → Query → Json
  | Domain.coins, _ =>
      Json.obj [("coins", Json.arr [Json.obj
        [("name", Json.str "Bitcoin"), ("price", Json.str "0")]])]
  | Domain.marsWeather, _ =>
      Json.obj [("sol", Json.num 1000), ("temperature", Json.num (-60))]
  | Domain.nasaTech, _ =>
      Json.obj [("results", Json.arr [Json.obj
        [("title", Json.str "archived technology record")]])]

/-- Modelled from the spec: the per-(session, domain) rate-bucket store. -/
abbrev BucketStore : Type := List ((String × Domain) × RateBucket)

/-- Look up the bucket of a (session token, domain) pair. -/
def bucketFor (bs : BucketStore) (k : String × Domain) : Option RateBucket :=
  (bs.find? (fun p => p.1 == k)).map (fun p => p.2)

/-- Store the bucket of a (session token, domain) pair, replacing any
previous one. -/
def bucketSet (bs : BucketStore) (k : String × Domain) (b : RateBucket) :
    BucketStore :=
  (k, b) :: bs.filter (fun p => p.1 != k)

/-- Modelled from the spec: the gateway's process-wide in-memory state —
session store, cache store, rate buckets. -/
structure GatewayState where
  sessions : SessionStore
  cache : CacheStore
  buckets : BucketStore

/-- Modelled from the spec: gateway configuration — the rate-limit policy
and the cache TTL. -/
structure GatewayConfig where
  rate : RateConfig
  cacheTtl : Nat

/-- What handling one domain request produces: the result, the state
afterwards, and whether an upstream call occurred. -/
structure DomainOutcome where
  result : GatewayResult
  state : GatewayState
  upstreamCalled : Bool

/-- Modelled from the spec: the Gateway Orchestrator state machine —
AUTH, then RATE_CHECK, then cache lookup (a hit is served `fresh` even when
rate-limited), then upstream fetch with cache store on success, and the
Fallback Resolver when the limiter denies the call or the upstream fails. -/
def handleDomain (cfg : GatewayConfig) (up : Domain → Query → UpstreamOutcome)
    (st : GatewayState) (dom : Domain) (q : Query) (cookie : Option String)
    (now : Nat) : DomainOutcome :=
  match validate st.sessions cookie now with
  | none => ⟨GatewayResult.unauthorized, st, false⟩
  | some s =>
      let rb := consume cfg.rate (bucketFor st.buckets (s.token, dom)) now
      let st1 : GatewayState :=
        ⟨st.sessions, st.cache, bucketSet st.buckets (s.token, dom) rb.2⟩
      match cacheGet st.cache (cacheKey dom q) now with
      | some v => ⟨GatewayResult.ok v Origin.fresh, st1, false⟩
      | none =>
          match rb.1 with
          | RateResult.RateLimited =>
              ⟨GatewayResult.ok (fallbackRepo dom q) Origin.fallback, st1, false⟩
          | RateResult.Allowed =>
              match up dom q with
              | UpstreamOutcome.success p =>
                  ⟨GatewayResult.ok p Origin.fresh,
                    ⟨st1.sessions,
                      cacheSet st1.cache (cacheKey dom q) p cfg.cacheTtl now,
                      st1.buckets⟩, true⟩
              | UpstreamOutcome.failure _ =>
                  ⟨GatewayResult.ok (fallbackRepo dom q) Origin.fallback, st1, true⟩

/-- C6 — A domain request whose session cookie names an expired session is
handled identically to a request with no cookie at all: HTTP-level
`unauthorized`, the state untouched, and no upstream call. -/
theorem expired_session_rejected (cfg : GatewayConfig)
    (up : Domain → Query → UpstreamOutcome) (st : GatewayState) (dom : Domain)
    (q : Query) (now : Nat) (tok : String) (s : Session)
    (hfind : st.sessions.find? (fun x => x.token == tok) = some s)
    (hexp : s.expiresAt < now) :
    handleDomain cfg up st dom q (some tok) now
      = handleDomain cfg up st dom q none now
    ∧ handleDomain cfg up st dom q none now
      = ⟨GatewayResult.unauthorized, st, false⟩ := by
  have hv : validate st.sessions (some tok) now = none := by
    simp only [validate, hfind]
    rw [if_pos hexp]
  have hnone : handleDomain cfg up st dom q none now
      = ⟨GatewayResult.unauthorized, st, false⟩ := by
    simp only [handleDomain, validate]
  refine ⟨?_, hnone⟩
  rw [hnone]
  simp only [handleDomain, hv]

/-- Demo session, valid until time 10. -/
def demoSession : Session := ⟨"tok", 0, 10⟩

/-- Demo gateway state: one session, empty cache, no buckets. -/
def demoState : GatewayState := ⟨[demoSession], [], []⟩

/-- Demo gateway configuration: 60-tick windows of at most 3 calls, cache
TTL 30. -/
def demoConfig : GatewayConfig := ⟨⟨60, 3⟩, 30⟩

/-- Demo upstream oracle that always succeeds. -/
def demoUp : Domain → Query → UpstreamOutcome :=
  fun _ _ => UpstreamOutcome.success (Json.str "live")

/-- Closed witness for C6: at time 20 the demo session (expired at 10) is
rejected exactly like a missing cookie. -/
theorem expired_session_rejected_witness :
    handleDomain demoConfig demoUp demoState Domain.coins [] (some "tok") 20
      = handleDomain demoConfig demoUp demoState Domain.coins [] none 20
    ∧ handleDomain demoConfig demoUp demoState Domain.coins [] none 20
      = ⟨GatewayResult.unauthorized, demoState, false⟩ :=
  expired_session_rejected demoConfig demoUp demoState Domain.coins [] 20
    "tok" demoSession rfl (by decide)

/-- C7 — With a valid session the gateway never surfaces an error: the
result is always `ok`; when the cache misses and the upstream fails (with
any of the four error kinds) the result is the successful fallback response;
and the Fallback Resolver always yields a non-empty payload. -/
theorem upstream_failures_absorbed (cfg : GatewayConfig)
    (up : Domain → Query → UpstreamOutcome) (st : GatewayState) (dom : Domain)
    (q : Query) (cookie : Option String) (now : Nat) (s : Session)
    (hs : validate st.sessions cookie now = some s) :
    (∃ p o, (handleDomain cfg up st dom q cookie now).result
        = GatewayResult.ok p o)
    ∧ (∀ e : UpstreamError,
        cacheGet st.cache (cacheKey dom q) now = none →
        (handleDomain cfg (fun _ _ => UpstreamOutcome.failure e)
            st dom q cookie now).result
          = GatewayResult.ok (fallbackRepo dom q) Origin.fallback)
    ∧ (∀ (d : Domain) (q' : Query), nonEmptyJson (fallbackRepo d q') = true) := by
  refine ⟨?_, fun e hc => ?_, fun d q' => ?_⟩
  · cases hc : cacheGet st.cache (cacheKey dom q) now with
    | some v =>
        exact ⟨v, Origin.fresh, by simp only [handleDomain, hs, hc]⟩
    | none =>
        cases hr : (consume cfg.rate (bucketFor st.buckets (s.token, dom)) now).1 with
        | RateLimited =>
            exact ⟨fallbackRepo dom q, Origin.fallback,
              by simp only [handleDomain, hs, hc, hr]⟩
        | Allowed =>
            cases hu : up dom q with
            | success p =>
                exact ⟨p, Origin.fresh,
                  by simp only [handleDomain, hs, hc, hr, hu]⟩
            | failure err =>
                exact ⟨fallbackRepo dom q, Origin.fallback,
                  by simp only [handleDomain, hs, hc, hr, hu]⟩
  · cases hr : (consume cfg.rate (bucketFor st.buckets (s.token, dom)) now).1 with
    | RateLimited => simp only [handleDomain, hs, hc, hr]
    | Allowed => simp only [handleDomain, hs, hc, hr]
  · cases d <;> rfl

/-- Closed witness for C7: at time 5 the demo session is valid; with an
empty cache and a timing-out upstream the coins endpoint answers with the
fallback payload, which is non-empty. -/
theorem upstream_failures_absorbed_witness :
    (handleDomain demoConfig (fun _ _ => UpstreamOutcome.failure UpstreamError.Timeout)
        demoState Domain.coins [] (some "tok") 5).result
      = GatewayResult.ok (fallbackRepo Domain.coins []) Origin.fallback
    ∧ nonEmptyJson (fallbackRepo Domain.marsWeather []) = true :=
  have h := upstream_failures_absorbed demoConfig
    (fun _ _ => UpstreamOutcome.failure UpstreamError.Timeout) demoState
    Domain.coins [] (some "tok") 5 demoSession rfl
  ⟨h.2.1 UpstreamError.Timeout rfl, h.2.2 Domain.marsWeather []⟩

/-- C9 — When the rate limiter denies the call but the cache holds a fresh
entry, the response is the cached value tagged `fresh`, no upstream call
occurs (the outcome does not depend on the upstream oracle at all), and the
cache is left unchanged. -/
theorem rate_limited_cache_hit (cfg : GatewayConfig)
    (up : Domain → Query → UpstreamOutcome) (st : GatewayState) (dom : Domain)
    (q : Query) (cookie : Option String) (now : Nat) (s : Session) (v : Json)
    (hs : validate st.sessions cookie now = some s)
    (hrl : (consume cfg.rate (bucketFor st.buckets (s.token, dom)) now).1
        = RateResult.RateLimited)
    (hhit : cacheGet st.cache (cacheKey dom q) now = some v) :
    (handleDomain cfg up st dom q cookie now).result
      = GatewayResult.ok v Origin.fresh
    ∧ (handleDomain cfg up st dom q cookie now).upstreamCalled = false
    ∧ (handleDomain cfg up st dom q cookie now).state.cache = st.cache
    ∧ ∀ up' : Domain → Query → UpstreamOutcome,
        handleDomain cfg up' st dom q cookie now
          = handleDomain cfg up st dom q cookie now := by
  refine ⟨?_, ?_, ?_, fun up' => ?_⟩ <;>
    simp only [handleDomain, hs, hhit]

/-- Demo state for the rate-limited cache-hit scenario: the coins bucket is
at the maximum (3 calls since time 0) and the cache holds the coins payload
stored at time 0 with TTL 30. -/
def demoStateRL : GatewayState :=
  ⟨[demoSession],
    [(cacheKey Domain.coins [], ⟨Json.str "cached-coins", 0, 30⟩)],
    [(("tok", Domain.coins), ⟨0, 3⟩)]⟩

/-- Closed witness for C9: at time 5 the demo session is valid, the coins
bucket is exhausted, the cache entry is fresh — the cached value is served
as `fresh` with no upstream call. -/
theorem rate_limited_cache_hit_witness :
    (handleDomain demoConfig demoUp demoStateRL Domain.coins [] (some "tok") 5).result
      = GatewayResult.ok (Json.str "cached-coins") Origin.fresh
    ∧ (handleDomain demoConfig demoUp demoStateRL Domain.coins [] (some "tok") 5).upstreamCalled
      = false :=
  have h := rate_limited_cache_hit demoConfig demoUp demoStateRL Domain.coins
    [] (some "tok") 5 demoSession (Json.str "cached-coins") rfl rfl rfl
  ⟨h.1, h.2.1⟩

/-! ### The gateway's HTTP surface (modelled from the spec) -/

/-- The wire name of each origin tag. -/
def originName : Origin → String
  | Origin.fresh => "fresh"
  | Origin.fallback => "fallback"

/-- Modelled from the spec: the response envelope — authentication failure
is HTTP 401; success is HTTP 200 with body `{data, origin}`. -/
def renderResult : GatewayResult → Response
  | GatewayResult.unauthorized =>
      ⟨401, Json.obj [("error", Json.str "Unauthorized")]⟩
  | GatewayResult.ok p o =>
      ⟨200, Json.obj [("data", p), ("origin", Json.str (originName o))]⟩

/-- Field lookup on a JSON object. -/
def lookupField (j : Json) (name : String) : Option Json :=
  match j with
  | Json.obj fs => (fs.find? (fun kv => kv.1 == name)).map (fun kv => kv.2)
  | _ => none

/-- C8 — Every domain-endpoint response is either the 401 authentication
failure or a 200 whose body carries an `origin` field equal to `"fresh"` or
`"fallback"`, so the caller can always distinguish live data from degraded
data. -/
theorem response_carries_origin (cfg : GatewayConfig)
    (up : Domain → Query → UpstreamOutcome) (st : GatewayState) (dom : Domain)
    (q : Query) (cookie : Option String) (now : Nat) :
    (renderResult (handleDomain cfg up st dom q cookie now).result).status = 401
    ∨ ((renderResult (handleDomain cfg up st dom q cookie now).result).status = 200
        ∧ (lookupField
              (renderResult (handleDomain cfg up st dom q cookie now).result).body
              "origin" = some (Json.str "fresh")
          ∨ lookupField
              (renderResult (handleDomain cfg up st dom q cookie now).result).body
              "origin" = some (Json.str "fallback"))) := by
  cases hg : (handleDomain cfg up st dom q cookie now).result with
  | unauthorized => exact Or.inl rfl
  | ok p o =>
      refine Or.inr ⟨rfl, ?_⟩
      cases o with
      | fresh => exact Or.inl rfl
      | fallback => exact Or.inr rfl

/-- Modelled from the spec: the gateway's HTTP surface — the three domain
endpoints, the captcha-verification endpoint and the health check. -/
def gatewayRoutes : List (Method × String) :=
  [(Method.GET, "/api/coins"), (Method.GET, "/api/mars-weather"),
    (Method.GET, "/api/nasa-tech"), (Method.POST, "/api/session/verify-captcha"),
    (Method.GET, "/health")]

/-- The domain served by a request path, if it is a domain endpoint. -/
def domainOfPath (p : String) : Option Domain :=
  if p = "/api/coins" then some Domain.coins
  else if p = "/api/mars-weather" then some Domain.marsWeather
  else if p = "/api/nasa-tech" then some Domain.nasaTech
  else none

/-- The `session` cookie of a request, if present. -/
def sessionCookie (req : Request) : Option String :=
  (req.cookies.find? (fun kv => kv.1 == "session")).map (fun kv => kv.2)

/-- Modelled from the spec: sessions are short-lived (minutes, not hours). -/
def sessionTtl : Nat := 300

/-- Modelled from the spec: `issue(captchaToken)` — an invalid or missing
captcha token yields HTTP 400 and no session is issued; a valid token
creates a session with the short fixed TTL. -/
def issueSession (validCaptcha : String → Bool) (newTok : String)
    (st : GatewayState) (captchaToken : Option String) (now : Nat) :
    Response × GatewayState :=
  match captchaToken with
  | none => (⟨400, Json.obj [("error", Json.str "CaptchaError")]⟩, st)
  | some c =>
      if validCaptcha c then
        (⟨200, Json.obj [("ok", Json.bool true)]⟩,
          ⟨⟨newTok, now, now + sessionTtl⟩ :: st.sessions, st.cache, st.buckets⟩)
      else (⟨400, Json.obj [("error", Json.str "CaptchaError")]⟩, st)

/-- Modelled from the spec: the gateway's HTTP dispatch — `GET /health`,
`POST /api/session/verify-captcha`, the three `GET` domain endpoints gated
on the `session` cookie, and 404 for everything else. -/
def gatewayHandle (cfg : GatewayConfig) (up : Domain → Query → UpstreamOutcome)
    (validCaptcha : String → Bool) (newTok : String)
    (st : GatewayState) (req : Request) (now : Nat) : Response × GatewayState :=
  if req.method = Method.GET ∧ req.path = "/health" then
    (⟨200, Json.obj [("status", Json.str "ok")]⟩, st)
  else if req.method = Method.POST ∧ req.path = "/api/session/verify-captcha" then
    issueSession validCaptcha newTok st req.body now
  else
    match req.method, domainOfPath req.path with
    | Method.GET, some dom =>
        let o := handleDomain cfg up st dom req.query (sessionCookie req) now
        (renderResult o.result, o.state)
    | _, _ => (notFoundResponse, st)

/-- A path that names a domain is one of the three GET domain endpoints. -/
theorem domainOfPath_routes (p : String) (d : Domain)
    (h : domainOfPath p = some d) : (Method.GET, p) ∈ gatewayRoutes := by
  unfold domainOfPath at h
  split_ifs at h with h1 h2 h3
  · subst h1; decide
  · subst h2; decide
  · subst h3; decide

/-- C2 — The gateway's HTTP surface is exactly the five specified endpoints:
any request the gateway does not answer with the 404 default is one of them,
and each of the three domain endpoints, reached without a `session` cookie,
answers 401 with the state untouched. -/
theorem gateway_surface (cfg : GatewayConfig)
    (up : Domain → Query → UpstreamOutcome) (validCaptcha : String → Bool)
    (newTok : String) (st : GatewayState) (now : Nat) :
    gatewayRoutes = [(Method.GET, "/api/coins"), (Method.GET, "/api/mars-weather"),
      (Method.GET, "/api/nasa-tech"), (Method.POST, "/api/session/verify-captcha"),
      (Method.GET, "/health")]
    ∧ (∀ req : Request,
        (gatewayHandle cfg up validCaptcha newTok st req now).1 ≠ notFoundResponse →
        (req.method, req.path) ∈ gatewayRoutes)
    ∧ (∀ (req : Request) (dom : Domain),
        domainOfPath req.path = some dom →
        req.method = Method.GET →
        sessionCookie req = none →
        gatewayHandle cfg up validCaptcha newTok st req now
          = (renderResult GatewayResult.unauthorized, st)) := by
  refine ⟨rfl, ?_, ?_⟩
  · intro req hne
    by_cases h1 : req.method = Method.GET ∧ req.path = "/health"
    · rw [h1.1, h1.2]; decide
    · by_cases h2 : req.method = Method.POST ∧ req.path = "/api/session/verify-captcha"
      · rw [h2.1, h2.2]; decide
      · simp only [gatewayHandle] at hne
        rw [if_neg h1, if_neg h2] at hne
        by_cases hg : req.method = Method.GET
        · cases hd : domainOfPath req.path with
          | some dom =>
              rw [hg]
              exact domainOfPath_routes req.path dom hd
          | none =>
              rw [hg, hd] at hne
              exact absurd rfl hne
        · have hp : req.method = Method.POST := by
            cases hm2 : req.method
            · exact absurd hm2 hg
            · rfl
          rw [hp] at hne
          exact absurd rfl hne
  · intro req dom hd hg hc
    have hhz : domainOfPath "/health" = (none : Option Domain) := by decide
    have hcz : domainOfPath "/api/session/verify-captcha" = (none : Option Domain) := by
      decide
    have h1 : ¬(req.method = Method.GET ∧ req.path = "/health") := by
      rintro ⟨-, hp⟩
      rw [hp, hhz] at hd
      exact Option.noConfusion hd
    have h2 : ¬(req.method = Method.POST ∧ req.path = "/api/session/verify-captcha") := by
      rintro ⟨hpm, -⟩
      rw [hg] at hpm
      exact Method.noConfusion hpm
    simp only [gatewayHandle]
    rw [if_neg h1, if_neg h2, hg, hd, hc]
    simp only [handleDomain, validate]

/-- Closed witness for C2: a cookie-less `GET /api/coins` against the demo
state answers 401 and leaves the state unchanged. -/
theorem gateway_surface_witness :
    gatewayHandle demoConfig demoUp (fun _ => true) "new" demoState
        ⟨Method.GET, "/api/coins", [], [], [], none⟩ 5
      = (renderResult GatewayResult.unauthorized, demoState) :=
  (gateway_surface demoConfig demoUp (fun _ => true) "new" demoState 5).2.2
    ⟨Method.GET, "/api/coins", [], [], [], none⟩ Domain.coins (by decide) rfl rfl

end GAPI
